import Mathlib

/-!
Shallow embedding of `src/source/YellowTeeth_v3.ino` (Arduino sketch for the
tooth-brushing exhibit controller), together with theorems settling the
frozen claims about it.

Modelling conventions:
* `millis()` values (type `unsigned long`, 32 bits) are modelled as `Nat`.
  The sketch performs no wraparound handling (its time comparisons add and
  compare raw timestamps), and all scenarios of interest live far below the
  2^32 ms wrap, so the additive time comparisons are modelled exactly over
  `Nat`; the one place where unsigned wraparound is observable on realistic
  inputs — the subtraction `SpikeHistory[TriggerFrequency-1] - SpikeHistory[0]`
  in `InputCheck` — is modelled with explicit mod-2^32 subtraction (`usub32`).
* `int` temperature readings and analog samples are modelled as `Int`
  (their physically reachable ranges are far from 16-bit overflow).
* The global mutable state of the sketch is gathered into a `State`
  structure, and each C function becomes a Lean function from its inputs
  (and the state pieces it reads) to its results (and the state pieces it
  writes).  One iteration of `loop()` is the function `loopStep`; the
  single `millis()` value `now` stands for all the `millis()` calls of one
  iteration (the iteration is much faster than 1 ms).
* The target platform is AVR (classic Arduino: the sketch uses PWM pins
  9/10/11 and `LED_BUILTIN`), where `sizeof(unsigned long *) = 2` and
  `sizeof(unsigned long) = 4`.  This matters only for `PushDown`, whose
  `ArraySize` is computed from the size of a decayed pointer parameter.
* An out-of-bounds C array store is undefined behaviour that clobbers
  adjacent memory; it is modelled as leaving the modelled array unchanged
  (`storeAt`), which is the only effect expressible on the embedded state.
-/

namespace YellowTeeth

/-! Constants of the sketch (lines 20-50). -/

abbrev NumHeaterPins : Nat := 3
abbrev StandByTarget : Int := 25
abbrev HeatTarget : Int := 33
abbrev TriggerThreshold : Int := 100
abbrev TriggerTimeframe : Nat := 3000
abbrev TriggerFrequency : Nat := 2
abbrev TempatureReadDelay : Nat := 1000
abbrev LowerBound : Int := -20
abbrev DeviationBound : Int := 10
abbrev HeatOnDuration : Nat := 15000
abbrev DebugDelay : Nat := 1000

/-- Size in bytes of a data pointer on the AVR target (16-bit address space). -/
abbrev sizeofPointer : Nat := 2

/-- Size in bytes of `unsigned long` on the AVR target. -/
abbrev sizeofUnsignedLong : Nat := 4

/-! `TempSanityCheck` (lines 221-231).  A pure predicate on the two readings;
it mutates no state. -/

/-- Embeds `bool TempSanityCheck(int TempValue1, int TempValue2)`
(lines 221-231): reject if either reading is below `LowerBound`, reject if
the readings deviate by more than `DeviationBound`, else accept. -/
def TempSanityCheck (TempValue1 TempValue2 : Int) : Bool :=
  if TempValue1 < LowerBound ∨ TempValue2 < LowerBound then false
  else if |TempValue1 - TempValue2| > DeviationBound then false
  else true

/-! `PushDown` (lines 234-240). -/

/-- Embeds the C computation
`int ArraySize = (sizeof(InputArray)/sizeof(unsigned long));` from line 235.
`InputArray` is a function parameter declared with array syntax, so its type
is adjusted to `unsigned long *` and `sizeof(InputArray)` is the size of a
pointer, not of the array at the call site: on AVR this gives `2 / 4 = 0`. -/
def ArraySize : Int := ((sizeofPointer / sizeofUnsignedLong : Nat) : Int)

/-- Models a C store `arr[i] = v` with a signed index: in bounds it updates
the array; out of bounds it is undefined behaviour on adjacent memory and is
modelled as leaving the (modelled) array itself unchanged. -/
def storeAt (arr : List Nat) (i : Int) (v : Nat) : List Nat :=
  if 0 ≤ i ∧ i.toNat < arr.length then arr.set i.toNat v else arr

/-- Models the loop `for (int i = 0; i < k; i++) { InputArray[i] = InputArray[i+1]; }`
after `k` iterations, executed sequentially on the evolving array (an
out-of-bounds read `arr[i+1]` is modelled as 0; with the `ArraySize` above
the loop body never runs). -/
def shiftLoop (arr : List Nat) : Nat → List Nat
  | 0 => arr
  | k + 1 =>
    let a := shiftLoop arr k
    storeAt a k (a.getD (k + 1) 0)

/-- Embeds `void PushDown(unsigned long InputArray[], unsigned long InputValue)`
(lines 234-240): shift entries down by the loop bound `ArraySize - 1` and
store the new value at index `ArraySize - 1`.  Because `ArraySize = 0`
(see `ArraySize`), the shift loop runs zero times and the final store targets
index `-1`, out of bounds. -/
def PushDown (InputArray : List Nat) (InputValue : Nat) : List Nat :=
  let shifted := shiftLoop InputArray (max 0 (ArraySize - 1)).toNat
  storeAt shifted (ArraySize - 1) InputValue

/-- Modelled from the spec: the intended behaviour of `PushDown` as a
fixed-capacity FIFO push (pushing a new timestamp evicts the oldest),
namely the same loop and store as `PushDown` but with `ArraySize` equal to
the actual array length at the call site (what `sizeof` was meant to yield). -/
def PushDownSpec (InputArray : List Nat) (InputValue : Nat) : List Nat :=
  let n : Int := (InputArray.length : Int)
  let shifted := shiftLoop InputArray (max 0 (n - 1)).toNat
  storeAt shifted (n - 1) InputValue

/-! `InputCheck` (lines 194-216). -/

/-- Unsigned-long (32-bit wraparound) subtraction, valid for operands below
2^32 (as all stored `millis()` values are). -/
def usub32 (a b : Nat) : Nat := (a + 4294967296 - b) % 4294967296

/-- Embeds `bool InputCheck()` (lines 194-216).  The analog sample
(`analogRead(TriggerPin)`) and the `millis()` value are passed in; the
result is `(return value, new SpikeUp, new SpikeHistory)`.
A rising sample sets `SpikeUp`; a falling sample with `SpikeUp` set pushes
`millis()` into `SpikeHistory` via `PushDown`, clears `SpikeUp`, and returns
true exactly when `SpikeHistory[TriggerFrequency-1] - SpikeHistory[0]`
(unsigned) is strictly below `TriggerTimeframe`. -/
def InputCheck (SpikeUp : Bool) (SpikeHistory : List Nat) (InputValue : Int)
    (now : Nat) : Bool × Bool × List Nat :=
  let su1 := if !SpikeUp && decide (InputValue > TriggerThreshold) then true else SpikeUp
  if su1 && decide (InputValue < TriggerThreshold) then
    let hist := PushDown SpikeHistory now
    if usub32 (hist.getD (TriggerFrequency - 1) 0) (hist.getD 0 0) < TriggerTimeframe then
      (true, false, hist)
    else
      (false, false, hist)
  else
    (false, su1, SpikeHistory)

/-! The global state and one iteration of `loop()` (lines 52-63, 100-187). -/

/-- The global mutable state of the sketch (lines 52-63), plus the levels
last driven onto the physical outputs (the three heater control lines and
the builtin LED; `true` = HIGH). -/
structure State where
  SpikeUp : Bool
  SpikeHistory : List Nat
  LastDebugMsg : Nat
  HeatEnableTime : Nat
  LastTempatureReadTime : Nat
  TargetTempature : Int
  HeaterEnable : Fin NumHeaterPins → Bool
  LeftTempature : Int
  RightTempature : Int
  heaterPin : Fin NumHeaterPins → Bool
  ledPin : Bool

/-- The external inputs consumed by one iteration of `loop()`: the `millis()`
value, the analog sample read inside `InputCheck`, and the two probe values
delivered by `getTempC` in case a temperature read happens this iteration. -/
structure LoopInput where
  now : Nat
  sample : Int
  leftReading : Int
  rightReading : Int

/-- Embeds lines 127-186 of `loop()`: the part after the temperature-read
block.  Updates `HeatEnableTime` when triggered, recomputes
`TargetTempature`, derives the three `HeaterEnable` flags from the stored
readings, drives the heater pins and the LED from the flags, and updates the
debug timestamp. -/
def loopTail (s : State) (Triggered : Bool) (now : Nat) : State :=
  let het := if Triggered then now else s.HeatEnableTime
  let target : Int := if now < het + HeatOnDuration then HeatTarget else StandByTarget
  let he0 : Bool := decide (s.LeftTempature < target)
  let he1 : Bool := decide (s.RightTempature < target)
  let he2 : Bool := he0 && he1
  let he : Fin NumHeaterPins → Bool := fun i => if i = 0 then he0 else if i = 1 then he1 else he2
  { s with
    HeatEnableTime := het
    TargetTempature := target
    HeaterEnable := he
    heaterPin := he
    ledPin := he0 || he1 || he2
    LastDebugMsg := if s.LastDebugMsg + DebugDelay < now then now else s.LastDebugMsg }

/-- Embeds one iteration of `void loop()` (lines 100-187).  It calls
`InputCheck`, sets the LED low, then — when `TempatureReadDelay` has elapsed
since the last read — stores fresh readings and checks their sanity,
returning early (flags forced false, pins left undriven) on failure;
otherwise it runs `loopTail`.  `InputCheck` does not touch
`LastTempatureReadTime`, so the read condition is stated on `s`; the sanity
check runs on the just-stored readings, i.e. on `inp`. -/
def loopStep (s : State) (inp : LoopInput) : State :=
  let ic := InputCheck s.SpikeUp s.SpikeHistory inp.sample inp.now
  let s1 : State := { s with SpikeUp := ic.2.1, SpikeHistory := ic.2.2, ledPin := false }
  if s.LastTempatureReadTime + TempatureReadDelay < inp.now then
    let s2 : State := { s1 with
      LastTempatureReadTime := inp.now
      LeftTempature := inp.leftReading
      RightTempature := inp.rightReading }
    if TempSanityCheck inp.leftReading inp.rightReading = false then
      { s2 with HeaterEnable := fun _ => false }
    else
      loopTail s2 ic.1 inp.now
  else
    loopTail s1 ic.1 inp.now

/-- The state established by `setup()` (lines 69-93): zero-primed
`SpikeHistory`, all flags false, all timestamps zero, outputs low. -/
def initialState : State where
  SpikeUp := false
  SpikeHistory := List.replicate TriggerFrequency 0
  LastDebugMsg := 0
  HeatEnableTime := 0
  LastTempatureReadTime := 0
  TargetTempature := 0
  HeaterEnable := fun _ => false
  LeftTempature := 0
  RightTempature := 0
  heaterPin := fun _ => false
  ledPin := false

/-- The condition of line 105: a temperature read happens this iteration. -/
abbrev readOccurs (s : State) (now : Nat) : Prop :=
  s.LastTempatureReadTime + TempatureReadDelay < now

/-- The condition of line 115: the just-taken readings fail the sanity check. -/
abbrev sanityFails (inp : LoopInput) : Prop :=
  TempSanityCheck inp.leftReading inp.rightReading = false

/-! Theorems settling the claims. -/

/-- C3: `TempSanityCheck` accepts exactly when both readings are at least
`LowerBound` and they deviate by at most `DeviationBound`; equivalently it
rejects whenever either reading is below `LowerBound` (regardless of the
other) or `|a - b| > DeviationBound`.  As a Lean function of its two
arguments it is a pure predicate with no state mutation. -/
theorem tempSanityCheck_spec (a b : Int) :
    TempSanityCheck a b = true ↔
      LowerBound ≤ a ∧ LowerBound ≤ b ∧ |a - b| ≤ DeviationBound := by
  rcases abs_cases (a - b) with ⟨he, _⟩ | ⟨he, _⟩ <;>
    · unfold TempSanityCheck
      rw [he]
      split_ifs <;> simp_all <;> omega

/-- C4: at the end of every loop iteration — whichever path the iteration
takes, including the sanity-failure path that forces all flags false — the
center heater flag equals the conjunction of the two side flags. -/
theorem heater_center_votes_conjunction (s : State) (inp : LoopInput) :
    (loopStep s inp).HeaterEnable 2 =
      ((loopStep s inp).HeaterEnable 0 && (loopStep s inp).HeaterEnable 1) := by
  simp only [loopStep]
  split_ifs <;> rfl

/-- C8: `PushDown` does not behave as a FIFO push on the
`TriggerFrequency`-entry `SpikeHistory`.  Its `ArraySize` is computed from
the size of the decayed pointer parameter, giving 0 (on AVR), so no entry is
shifted and the final store targets index `-1`, out of bounds; the array is
left unchanged (the store clobbers adjacent memory instead).  The intended
push (`PushDownSpec`, the same code with the true array length) would
shift the entries toward index 0 and store the new timestamp last. -/
theorem pushDown_sizeof_bug :
    ArraySize = 0 ∧
    PushDown (List.replicate TriggerFrequency 0) 1000 = List.replicate TriggerFrequency 0 ∧
    PushDownSpec (List.replicate TriggerFrequency 0) 1000 = [0, 1000] ∧
    PushDown (List.replicate TriggerFrequency 0) 1000 ≠
      PushDownSpec (List.replicate TriggerFrequency 0) 1000 := by decide

/-- C9 (counterexample): a sample exactly equal to `TriggerThreshold` is not
treated as below the threshold: with `SpikeUp` set it does **not** complete the spike
(`SpikeUp` stays true and no trigger is returned), whereas a strictly-below
sample (99) does complete it (`SpikeUp` cleared, and — via the unchanged
zero-primed window — a trigger returned). -/
theorem threshold_equal_sample_cex :
    (InputCheck true (List.replicate TriggerFrequency 0) TriggerThreshold 2000).2.1 = true ∧
    (InputCheck true (List.replicate TriggerFrequency 0) TriggerThreshold 2000).1 = false ∧
    (InputCheck true (List.replicate TriggerFrequency 0) 99 2000).2.1 = false ∧
    (InputCheck true (List.replicate TriggerFrequency 0) 99 2000).1 = true := by decide

/-- C9 (amended): a sample exactly equal to `TriggerThreshold` is inert —
it never starts a spike, never completes one, and leaves the detector state
(`SpikeUp` and `SpikeHistory`) unchanged, returning false. -/
theorem threshold_equal_sample_inert (su : Bool) (hist : List Nat) (now : Nat) :
    InputCheck su hist TriggerThreshold now = (false, su, hist) := by
  cases su <;> rfl


/-- C1 (counterexample): with the zero-primed window, a sample of 150 at
t=0 starts a spike without firing, and the sample of 50 at t=1000 completes
that first full spike and **already fires a trigger** — the claim says a
single full spike completing at t=1000 ms does not yet fire.  (`PushDown`
leaves the window at `[0, 0]`, so the measured span is 0 < 3000; even the
intended shift would give window `[0, 1000]` with span 1000 < 3000.) -/
theorem single_spike_fires_cex :
    (InputCheck false (List.replicate TriggerFrequency 0) 150 0).2.1 = true ∧
    (InputCheck false (List.replicate TriggerFrequency 0) 150 0).1 = false ∧
    (InputCheck true
      (InputCheck false (List.replicate TriggerFrequency 0) 150 0).2.2 50 1000).1 = true := by
  decide

/-- C1 (amended): a call to `InputCheck` declares a trigger iff it completes
a spike (`SpikeUp` was set and the sample is strictly below
`TriggerThreshold`) and, on the window left by `PushDown`, the unsigned span
between the entries at index `TriggerFrequency-1` and index 0 is strictly
below `TriggerTimeframe`; but `PushDown` leaves the window unchanged (its
size computation on the decayed pointer parameter yields 0), so the
completion timestamp is never recorded and, with the zero-primed window,
every completed spike fires. -/
theorem inputCheck_trigger_amended (su : Bool) (hist : List Nat) (sample : Int) (now : Nat) :
    PushDown hist now = hist ∧
    ((InputCheck su hist sample now).1 = true ↔
      su = true ∧ sample < TriggerThreshold ∧
        usub32 ((PushDown hist now).getD (TriggerFrequency - 1) 0)
          ((PushDown hist now).getD 0 0) < TriggerTimeframe) := by
  refine ⟨rfl, ?_⟩
  unfold InputCheck
  cases su with
  | false =>
    by_cases hlt : sample < TriggerThreshold
    · have hgt : ¬ TriggerThreshold < sample := by omega
      simp [hlt, hgt]
    · simp [hlt]
  | true =>
    by_cases hlt : sample < TriggerThreshold
    · simp only [hlt]
      simp
      split_ifs with hspan <;> simp [hspan, hlt]
    · simp [hlt]

/-- Helper for C2: the target computed by `loopTail` is the Heating setpoint
exactly when `now` minus the updated `HeatEnableTime` is below
`HeatOnDuration` (the additive comparison of line 131 and the elapsed-time
phrasing agree over `Nat` because `HeatOnDuration` is positive). -/
lemma loopTail_target (s : State) (t : Bool) (now : Nat) :
    (loopTail s t now).TargetTempature =
      (if now - (loopTail s t now).HeatEnableTime < HeatOnDuration
        then HeatTarget else StandByTarget) := by
  have hD : 0 < HeatOnDuration := by decide
  simp only [loopTail]
  split_ifs <;> first | rfl | omega

/-- C2: on every iteration that reaches the target computation (i.e. does
not early-return from a failed sanity check), the new `TargetTempature` is
the Heating setpoint exactly when the time elapsed since the last accepted
trigger — `now` minus the (possibly just-updated) `HeatEnableTime` — is
strictly below `HeatOnDuration`, and the Standby setpoint otherwise; hence
after a trigger the target stays at the Heating setpoint for `HeatOnDuration`
and reverts to Standby once that duration elapses with no further trigger. -/
theorem targetTempature_hold_window (s : State) (inp : LoopInput)
    (hreach : ¬ (readOccurs s inp.now ∧ sanityFails inp)) :
    (loopStep s inp).TargetTempature =
      (if inp.now - (loopStep s inp).HeatEnableTime < HeatOnDuration
        then HeatTarget else StandByTarget) := by
  by_cases hc1 : s.LastTempatureReadTime + TempatureReadDelay < inp.now
  · by_cases hc2 : TempSanityCheck inp.leftReading inp.rightReading = false
    · exact absurd ⟨hc1, hc2⟩ hreach
    · simp only [loopStep, if_pos hc1, if_neg hc2]
      exact loopTail_target _ _ _
  · simp only [loopStep, if_neg hc1]
    exact loopTail_target _ _ _

/-- Witness for C2 at a concrete no-read iteration from the initial state. -/
theorem targetTempature_hold_window_witness :
    ¬ (readOccurs initialState 500 ∧ sanityFails ⟨500, 0, 0, 0⟩) ∧
    (loopStep initialState ⟨500, 0, 0, 0⟩).TargetTempature =
      (if 500 - (loopStep initialState ⟨500, 0, 0, 0⟩).HeatEnableTime < HeatOnDuration
        then HeatTarget else StandByTarget) :=
  ⟨by decide, targetTempature_hold_window initialState ⟨500, 0, 0, 0⟩ (by decide)⟩

/-- C5: on an iteration where a temperature read occurs and the readings
fail `TempSanityCheck`, all heater-enable flags are forced false and the
rest of the heat-control update is skipped: `HeatEnableTime` and
`TargetTempature` are left unchanged. -/
theorem sanity_failure_clears_flags_keeps_timers (s : State) (inp : LoopInput)
    (hr : readOccurs s inp.now) (hf : sanityFails inp) :
    (∀ i, (loopStep s inp).HeaterEnable i = false) ∧
    (loopStep s inp).HeatEnableTime = s.HeatEnableTime ∧
    (loopStep s inp).TargetTempature = s.TargetTempature := by
  simp only [loopStep, if_pos hr, if_pos hf]
  simp

/-- Witness for C5 at a concrete rejected read from the initial state. -/
theorem sanity_failure_clears_flags_keeps_timers_witness :
    readOccurs initialState 2000 ∧ sanityFails ⟨2000, 0, -25, 20⟩ ∧
    (loopStep initialState ⟨2000, 0, -25, 20⟩).HeaterEnable 0 = false ∧
    (loopStep initialState ⟨2000, 0, -25, 20⟩).HeaterEnable 1 = false ∧
    (loopStep initialState ⟨2000, 0, -25, 20⟩).HeaterEnable 2 = false ∧
    (loopStep initialState ⟨2000, 0, -25, 20⟩).HeatEnableTime = initialState.HeatEnableTime ∧
    (loopStep initialState ⟨2000, 0, -25, 20⟩).TargetTempature = initialState.TargetTempature := by
  have h := sanity_failure_clears_flags_keeps_timers initialState ⟨2000, 0, -25, 20⟩
    (by decide) (by decide)
  exact ⟨by decide, by decide, h.1 0, h.1 1, h.1 2, h.2.1, h.2.2⟩

/-- C6 (counterexample): after an iteration whose readings are rejected
(stored `LeftTempature = -25`, flags forced false), the very next iteration
— still inside the read-delay window, so with no new reading and the failed
check still the most recent one — recomputes the Heater Enable Vector from
the stored rejected reading: `HeaterEnable[0]` becomes true because
`-25 < TargetTempature`.  The previous (all-false) vector is not preserved. -/
theorem heater_vector_recompute_after_rejection_cex :
    (loopStep initialState ⟨2000, 0, -25, 20⟩).HeaterEnable 0 = false ∧
    (loopStep initialState ⟨2000, 0, -25, 20⟩).LeftTempature = -25 ∧
    TempSanityCheck (-25) 20 = false ∧
    ¬ readOccurs (loopStep initialState ⟨2000, 0, -25, 20⟩) 2500 ∧
    (loopStep (loopStep initialState ⟨2000, 0, -25, 20⟩) ⟨2500, 0, 99, 99⟩).HeaterEnable 0
      = true := by
  decide

/-- C6 (amended): the derivation of the Heater Enable Vector is skipped only
within the rejecting iteration itself (where the flags are forced false);
every iteration that performs no new temperature read — whether or not the
most recent gate check failed — recomputes the vector from the stored
`LeftTempature`/`RightTempature`, rejected values included. -/
theorem heater_vector_recomputed_without_read (s : State) (inp : LoopInput)
    (hnr : ¬ readOccurs s inp.now) :
    (loopStep s inp).LeftTempature = s.LeftTempature ∧
    (loopStep s inp).RightTempature = s.RightTempature ∧
    (loopStep s inp).HeaterEnable 0
      = decide (s.LeftTempature < (loopStep s inp).TargetTempature) ∧
    (loopStep s inp).HeaterEnable 1
      = decide (s.RightTempature < (loopStep s inp).TargetTempature) ∧
    (loopStep s inp).HeaterEnable 2
      = ((loopStep s inp).HeaterEnable 0 && (loopStep s inp).HeaterEnable 1) := by
  simp only [loopStep, if_neg hnr]
  exact ⟨rfl, rfl, rfl, rfl, rfl⟩

/-- State holding the rejected readings stored by a failed check at t=2000:
the left probe read -25 (below `LowerBound`), the right probe 20. -/
def rejectedStoredState : State :=
  { initialState with
    LeftTempature := -25
    RightTempature := 20
    LastTempatureReadTime := 2000 }

/-- Witness for the amended C6 claim: a no-read iteration whose stored left
reading is the rejected value -25 still derives the flags from it. -/
theorem heater_vector_recomputed_without_read_witness :
    ¬ readOccurs rejectedStoredState 2500 ∧
    (loopStep rejectedStoredState ⟨2500, 0, 99, 99⟩).HeaterEnable 0
      = decide (rejectedStoredState.LeftTempature
          < (loopStep rejectedStoredState ⟨2500, 0, 99, 99⟩).TargetTempature) ∧
    (loopStep rejectedStoredState ⟨2500, 0, 99, 99⟩).HeaterEnable 0 = true := by
  have h := heater_vector_recomputed_without_read rejectedStoredState ⟨2500, 0, 99, 99⟩
    (by decide)
  exact ⟨by decide, h.2.2.1, by decide⟩

/-- State in which the vibration signal is above the threshold (a spike has
started and not yet returned). -/
def spikeUpState : State := { initialState with SpikeUp := true }

/-- C7 (counterexample): an iteration where `InputCheck` fires a trigger but
the (simultaneously taken) readings fail the sanity check loses the trigger:
the early return happens before line 127, so `HeatEnableTime` stays 0
instead of being set to `now = 2000`. -/
theorem trigger_lost_on_sanity_failure_cex :
    (InputCheck spikeUpState.SpikeUp spikeUpState.SpikeHistory 50 2000).1 = true ∧
    readOccurs spikeUpState 2000 ∧
    sanityFails ⟨2000, 50, -25, 20⟩ ∧
    (loopStep spikeUpState ⟨2000, 50, -25, 20⟩).HeatEnableTime = 0 ∧
    (0 : Nat) ≠ 2000 := by decide

/-- C7 (amended): on every iteration where `InputCheck` returns true *and*
the iteration does not early-return from a failed sanity check,
`HeatEnableTime` is set to the current time, restarting the hold window. -/
theorem trigger_updates_heatEnableTime (s : State) (inp : LoopInput)
    (ht : (InputCheck s.SpikeUp s.SpikeHistory inp.sample inp.now).1 = true)
    (hreach : ¬ (readOccurs s inp.now ∧ sanityFails inp)) :
    (loopStep s inp).HeatEnableTime = inp.now := by
  by_cases hc1 : s.LastTempatureReadTime + TempatureReadDelay < inp.now
  · by_cases hc2 : TempSanityCheck inp.leftReading inp.rightReading = false
    · exact absurd ⟨hc1, hc2⟩ hreach
    · simp only [loopStep, if_pos hc1, if_neg hc2, loopTail, ht, if_true]
  · simp only [loopStep, if_neg hc1, loopTail, ht, if_true]

/-- Witness for the amended C7 claim: a firing no-read iteration updates
`HeatEnableTime` to `now = 500`. -/
theorem trigger_updates_heatEnableTime_witness :
    (InputCheck spikeUpState.SpikeUp spikeUpState.SpikeHistory 50 500).1 = true ∧
    ¬ (readOccurs spikeUpState 500 ∧ sanityFails ⟨500, 50, 0, 0⟩) ∧
    (loopStep spikeUpState ⟨500, 50, 0, 0⟩).HeatEnableTime = 500 :=
  ⟨by decide, by decide,
    trigger_updates_heatEnableTime spikeUpState ⟨500, 50, 0, 0⟩ (by decide) (by decide)⟩

/-- C10: an iteration that early-returns from a failed sanity check does not
run the output-drive loop: the heater pins keep whatever levels a previous
iteration drove, even though all `HeaterEnable` flags were just forced
false; and on any iteration that does get past the sanity check, the pins
end up equal to the flags (so the cleared flags only reach the pins then). -/
theorem heater_pins_frozen_on_sanity_failure (s : State) (inp : LoopInput)
    (hr : readOccurs s inp.now) (hf : sanityFails inp) :
    (∀ i, (loopStep s inp).heaterPin i = s.heaterPin i) ∧
    (∀ i, (loopStep s inp).HeaterEnable i = false) ∧
    (∀ (t : State) (jnp : LoopInput), ¬ (readOccurs t jnp.now ∧ sanityFails jnp) →
      ∀ i, (loopStep t jnp).heaterPin i = (loopStep t jnp).HeaterEnable i) := by
  refine ⟨?_, ?_, ?_⟩
  · intro i
    simp only [loopStep, if_pos hr, if_pos hf]
  · intro i
    simp only [loopStep, if_pos hr, if_pos hf]
  · intro t jnp hre i
    by_cases hc1 : t.LastTempatureReadTime + TempatureReadDelay < jnp.now
    · by_cases hc2 : TempSanityCheck jnp.leftReading jnp.rightReading = false
      · exact absurd ⟨hc1, hc2⟩ hre
      · simp only [loopStep, if_pos hc1, if_neg hc2]
        rfl
    · simp only [loopStep, if_neg hc1]
      rfl

/-- State whose heater pins were all driven HIGH by an earlier iteration. -/
def pinsHighState : State := { initialState with heaterPin := fun _ => true }

/-- Witness for C10: a rejecting iteration from a state whose pins were
driven HIGH leaves pin 0 HIGH while flag 0 is false. -/
theorem heater_pins_frozen_on_sanity_failure_witness :
    readOccurs pinsHighState 2000 ∧
    sanityFails ⟨2000, 0, -25, 20⟩ ∧
    (loopStep pinsHighState ⟨2000, 0, -25, 20⟩).heaterPin 0 = true ∧
    (loopStep pinsHighState ⟨2000, 0, -25, 20⟩).HeaterEnable 0 = false := by
  have h := heater_pins_frozen_on_sanity_failure pinsHighState ⟨2000, 0, -25, 20⟩
    (by decide) (by decide)
  exact ⟨by decide, by decide, h.1 0, h.2.1 0⟩

end YellowTeeth
